import Mathlib

/-!
Verification development for the document-analysis webhook in `main.py`.

The program is a Flask webhook that downloads a document, runs OCR on it,
sends the extracted text to a generative backend twice (once for a
schema-constrained JSON extraction, once for a plain-text summary), saves
the results to external stores, and answers with a Dialogflow fulfillment
JSON object.

The embedding below is shallow: external collaborators (the HTTP client,
the OCR client, the generative backend, the two stores) are modelled as
oracle functions supplied per request, and every network call the code
makes is recorded in an explicit trace of `CallEvent`s.  Pure parts of the
code (session-path parsing, prompt construction, JSON parsing of the model
answer, response construction) are translated directly.
-/

/-- JSON values, as produced by the Python json module.  Object fields keep
their textual order; the inputs exercised here contain no duplicate keys. -/
inductive Json where
  | null : Json
  | bool (b : Bool) : Json
  | num (n : Int) : Json
  | str (s : String) : Json
  | arr (xs : List Json) : Json
  | obj (fields : List (String × Json)) : Json

/-- Python truthiness (`if not structured_data`) on a JSON value: None,
False, 0, "", [] and the empty object are falsy, everything else truthy. -/
def pyTruthy : Json → Bool
  | Json.null => false
  | Json.bool b => b
  | Json.num n => decide (n ≠ 0)
  | Json.str s => s ≠ ""
  | Json.arr xs => !xs.isEmpty
  | Json.obj kvs => !kvs.isEmpty

/-- Lookup of a key in a parsed JSON object, first match wins (the parsed
objects here have no duplicate keys, so this is Python dict lookup). -/
def lookupKey : List (String × Json) → String → Option Json
  | [], _ => none
  | (k, v) :: rest, key => if k = key then some v else lookupKey rest key

/-- Python dict item assignment `d[key] = v`: overwrite in place when the
key exists, append otherwise. -/
def setKey : List (String × Json) → String → Json → List (String × Json)
  | [], key, v => [(key, v)]
  | (k, w) :: rest, key, v =>
      if k = key then (key, v) :: rest else (k, w) :: setKey rest key v

/-- JSON whitespace, as skipped by the Python json parser. -/
def isJsonWs (c : Char) : Bool :=
  c = ' ' || c = '\t' || c = '\n' || c = '\r'

/-- Drop leading JSON whitespace. -/
def skipWs : List Char → List Char
  | [] => []
  | c :: cs => if isJsonWs c then skipWs cs else c :: cs

/-- Parse the body of a JSON string literal (after the opening quote),
returning the decoded characters and the input after the closing quote. -/
def parseStringBody : List Char → Option (List Char × List Char)
  | [] => none
  | '"' :: cs => some ([], cs)
  | '\\' :: e :: cs =>
      let dec : Option Char :=
        if e = '"' then some '"'
        else if e = '\\' then some '\\'
        else if e = '/' then some '/'
        else if e = 'n' then some '\n'
        else if e = 't' then some '\t'
        else if e = 'r' then some '\r'
        else none
      match dec with
      | none => none
      | some ch =>
        match parseStringBody cs with
        | some (s, rest) => some (ch :: s, rest)
        | none => none
  | c :: cs =>
      match parseStringBody cs with
      | some (s, rest) => some (c :: s, rest)
      | none => none

/-- Take a maximal run of decimal digits. -/
def takeDigits : List Char → (List Char × List Char)
  | [] => ([], [])
  | c :: cs =>
      if c.isDigit then
        let (d, r) := takeDigits cs
        (c :: d, r)
      else ([], c :: cs)

/-- Numeric value of a digit run. -/
def digitsToNat : List Char → Nat
  | [] => 0
  | c :: cs => digitsToNat cs + c.toNat.sub 48 * 10 ^ cs.length

/-- Parse items of a nonempty JSON array, given a parser for one value;
consumes the closing bracket. -/
def parseItems (pv : List Char → Option (Json × List Char)) :
    Nat → List Char → Option (List Json × List Char)
  | 0, _ => none
  | fuel + 1, cs =>
      match pv cs with
      | none => none
      | some (v, r) =>
        match skipWs r with
        | ',' :: r2 =>
            match parseItems pv fuel r2 with
            | some (xs, r3) => some (v :: xs, r3)
            | none => none
        | ']' :: r2 => some ([v], r2)
        | _ => none

/-- Parse fields of a nonempty JSON object, given a parser for one value;
consumes the closing brace. -/
def parseFields (pv : List Char → Option (Json × List Char)) :
    Nat → List Char → Option (List (String × Json) × List Char)
  | 0, _ => none
  | fuel + 1, cs =>
      match skipWs cs with
      | '"' :: rest =>
        match parseStringBody rest with
        | none => none
        | some (k, r) =>
          match skipWs r with
          | ':' :: r2 =>
            match pv r2 with
            | none => none
            | some (v, r3) =>
              match skipWs r3 with
              | ',' :: r4 =>
                  match parseFields pv fuel r4 with
                  | some (kvs, r5) => some ((String.mk k, v) :: kvs, r5)
                  | none => none
              | '\x7d' :: r4 => some ([(String.mk k, v)], r4)
              | _ => none
          | _ => none
      | _ => none

/-- Recursive-descent parser for one JSON value (fuel-indexed so that it is
structurally recursive and computes inside the kernel).  It accepts the
JSON subset this development exercises (objects, arrays, strings, integer
numbers, booleans, null); on everything it accepts it agrees with Python
json.loads, and like Python it rejects any input whose first
non-whitespace character cannot start a JSON value. -/
def parseV : Nat → List Char → Option (Json × List Char)
  | 0, _ => none
  | fuel + 1, cs =>
      match skipWs cs with
      | [] => none
      | c :: rest =>
          if c = '\x7b' then
            match skipWs rest with
            | '\x7d' :: r => some (Json.obj [], r)
            | rest2 => match parseFields (parseV fuel) fuel rest2 with
                       | some (kvs, r) => some (Json.obj kvs, r)
                       | none => none
          else if c = '[' then
            match skipWs rest with
            | ']' :: r => some (Json.arr [], r)
            | rest2 => match parseItems (parseV fuel) fuel rest2 with
                       | some (xs, r) => some (Json.arr xs, r)
                       | none => none
          else if c = '"' then
            match parseStringBody rest with
            | some (s, r) => some (Json.str (String.mk s), r)
            | none => none
          else if c = 't' then
            match rest with
            | 'r' :: 'u' :: 'e' :: r => some (Json.bool true, r)
            | _ => none
          else if c = 'f' then
            match rest with
            | 'a' :: 'l' :: 's' :: 'e' :: r => some (Json.bool false, r)
            | _ => none
          else if c = 'n' then
            match rest with
            | 'u' :: 'l' :: 'l' :: r => some (Json.null, r)
            | _ => none
          else if c = '-' then
            match takeDigits rest with
            | ([], _) => none
            | (ds, r) => some (Json.num (-(digitsToNat ds : Int)), r)
          else if c.isDigit then
            match takeDigits (c :: rest) with
            | (ds, r) => some (Json.num (digitsToNat ds : Int), r)
          else none

/-- Model of Python json.loads as used at line 118 of main.py: parse one
value, allowing surrounding whitespace; any leftover input is the
"Extra data" error.  `none` models json.loads raising. -/
def json_loads (s : String) : Option Json :=
  match parseV (2 * s.length + 2) s.data with
  | some (v, rest) => if (skipWs rest).isEmpty then some v else none
  | none => none

/-- Escape one character for a JSON string literal (ASCII inputs). -/
def dumpChar (c : Char) : List Char :=
  if c = '"' then ['\\', '"']
  else if c = '\\' then ['\\', '\\']
  else if c = '\n' then ['\\', 'n']
  else if c = '\t' then ['\\', 't']
  else if c = '\r' then ['\\', 'r']
  else [c]

/-- Serialize a string as a JSON string literal. -/
def dumpStr (s : String) : String :=
  String.mk ('"' :: (s.data.flatMap dumpChar) ++ ['"'])

/-- Indentation: `n` spaces. -/
def pad (n : Nat) : String :=
  String.mk (List.replicate n ' ')

mutual
/-- Model of Python json.dumps(x, indent=2) (line 128 of main.py), at a
given current indentation depth. -/
def dumpJson : Nat → Json → String
  | _, Json.null => "null"
  | _, Json.bool true => "true"
  | _, Json.bool false => "false"
  | _, Json.num n => toString n
  | _, Json.str s => dumpStr s
  | _, Json.arr [] => "[]"
  | ind, Json.arr (x :: xs) =>
      "[\n" ++ pad (ind + 2) ++ dumpJson (ind + 2) x ++ dumpArrRest (ind + 2) xs
        ++ "\n" ++ pad ind ++ "]"
  | _, Json.obj [] => "\x7b\x7d"
  | ind, Json.obj ((k, v) :: kvs) =>
      "\x7b\n" ++ pad (ind + 2) ++ dumpStr k ++ ": " ++ dumpJson (ind + 2) v
        ++ dumpFieldsRest (ind + 2) kvs ++ "\n" ++ pad ind ++ "\x7d"

/-- Remaining array items for `dumpJson`. -/
def dumpArrRest : Nat → List Json → String
  | _, [] => ""
  | ind, x :: xs => ",\n" ++ pad ind ++ dumpJson ind x ++ dumpArrRest ind xs

/-- Remaining object fields for `dumpJson`. -/
def dumpFieldsRest : Nat → List (String × Json) → String
  | _, [] => ""
  | ind, (k, v) :: kvs =>
      ",\n" ++ pad ind ++ dumpStr k ++ ": " ++ dumpJson ind v ++ dumpFieldsRest ind kvs
end

/-- Python json.dumps(x, indent=2) at top level. -/
def json_dumps_indent2 (j : Json) : String := dumpJson 0 j

/-- Text of the structured-extraction f-string before the interpolated
`extracted_text` (main.py lines 62-72). -/
def structPromptBefore : String :=
  "\n    Analyze the following medical lab report text. Extract the following information into a single JSON object.\n    If any data is not present, use \"N/A\".\n    - patientName (string)\n    - testName (string)\n    - testDate (string)\n    - results (array of objects, each with \x27resultName\x27 and \x27value\x27)\n    - interpretation (summary of the results and what they mean)\n\n    Extracted text:\n    \x60\x60\x60\n    "

/-- Text of the structured-extraction f-string after the interpolated
`extracted_text` (main.py lines 73-75). -/
def structPromptAfter : String := "\n    \x60\x60\x60\n    "

/-- The structured-extraction prompt (main.py lines 62-75): the f-string
embeds `extracted_text` between the fixed surrounding text, with no
truncation applied anywhere. -/
def prompt_for_structured_data (extracted_text : String) : String :=
  structPromptBefore ++ extracted_text ++ structPromptAfter

/-- Text of the summary f-string before the interpolated JSON dump
(main.py lines 121-127). -/
def summaryPromptBefore : String :=
  "\n        Given the following medical test results in JSON format, generate a concise,\n        easy-to-read summary for the patient. Explain what the results mean,\n        suggest next steps (like \"discuss with your doctor\"), and recommend follow-up actions.\n\n        JSON data:\n        \x60\x60\x60\n        "

/-- Text of the summary f-string after the interpolated JSON dump
(main.py lines 128-130). -/
def summaryPromptAfter : String := "\n        \x60\x60\x60\n        "

/-- The summary prompt (main.py lines 121-130), embedding
json.dumps(structured_data, indent=2). -/
def summary_prompt (structured_data : Json) : String :=
  summaryPromptBefore ++ json_dumps_indent2 structured_data ++ summaryPromptAfter

/-- One network call made by the webhook, recorded in order. -/
inductive CallEvent where
  | httpGet (url : String) : CallEvent
  | visionDetect (size : Nat) : CallEvent
  | geminiPost (pr : String) : CallEvent
  | gcsUpload : CallEvent
  | firestoreSet : CallEvent
deriving DecidableEq

/-- Whether an event is a request to the generative backend. -/
def CallEvent.isGeminiPost : CallEvent → Bool
  | CallEvent.geminiPost _ => true
  | _ => false

/-- Outcome of one requests.post to the Gemini endpoint: `raised` covers a
connection failure, a non-2xx status (raise_for_status) and an unparsable
response body; `responded t` is a 2xx JSON body whose
candidates[0].content.parts[0].text chain yields `t` (absent keys along
the chain yield `none`, which the code replaces by a literal default). -/
inductive GeminiOutcome where
  | raised : GeminiOutcome
  | responded (text : Option String) : GeminiOutcome

/-- The generative backend as seen from the two call sites of
analyze_document_with_gemini, each a function of the prompt sent. -/
structure GeminiBackend where
  structuredCall : String → GeminiOutcome
  summaryCall : String → GeminiOutcome

/-- Model of analyze_document_with_gemini (main.py lines 52-154).  Returns
the (structured_data, summary) pair of the Python function together with
the trace of Gemini requests issued.  `none` for structured_data models
Python None.  The single try block means a failure of the second call
discards the already-parsed structured data. -/
def analyze_document_with_gemini (apiKey : String) (backend : GeminiBackend)
    (extracted_text : String) : (Option Json × String) × List CallEvent :=
  if apiKey = "" then
    ((none, "Analysis unavailable. Please try again later."), [])
  else
    let p := prompt_for_structured_data extracted_text
    match backend.structuredCall p with
    | GeminiOutcome.raised =>
        ((none, "There was a problem analyzing your document."), [CallEvent.geminiPost p])
    | GeminiOutcome.responded t =>
        let structured_data_str := t.getD "\x7b\x7d"
        match json_loads structured_data_str with
        | none =>
            ((none, "There was a problem analyzing your document."), [CallEvent.geminiPost p])
        | some structured_data =>
            let sp := summary_prompt structured_data
            match backend.summaryCall sp with
            | GeminiOutcome.raised =>
                ((none, "There was a problem analyzing your document."),
                  [CallEvent.geminiPost p, CallEvent.geminiPost sp])
            | GeminiOutcome.responded st =>
                ((some structured_data, st.getD "Could not generate a summary."),
                  [CallEvent.geminiPost p, CallEvent.geminiPost sp])

/-- Model of Python str.split with a one-character separator: splitting the
empty string yields [""], and separators at the ends yield empty pieces. -/
def splitOnChar (sep : Char) : List Char → List (List Char)
  | [] => [[]]
  | c :: rest =>
      match splitOnChar sep rest with
      | [] => [[]]
      | g :: gs => if c = sep then [] :: g :: gs else (c :: g) :: gs

/-- Python session_path.split("/") on strings. -/
def pySplitSlash (s : String) : List String :=
  (splitOnChar '/' s.data).map String.mk

/-- Model of parse_dialogflow_session_id (main.py lines 43-49):
parts[8] when the path has at least 9 slash-separated parts, else None. -/
def parse_dialogflow_session_id (session_path : String) : Option String :=
  let parts := pySplitSlash session_path
  if 9 ≤ parts.length then parts[8]? else none

/-- Model of save_to_firestore (main.py lines 157-172): the external write
either succeeds or fails; its own try block converts failure to False. -/
def save_to_firestore (firestoreOk : Bool) : Bool := firestoreOk

/-- Model of save_to_cloud_storage (main.py lines 175-191): on success the
gs:// URL for the blob path, on any storage failure None (its own try
block swallows the exception). -/
def save_to_cloud_storage (bucket : String) (gcsOk : Bool)
    (app_id user_id doc_name : String) : Option String :=
  if gcsOk then
    some ("gs://" ++ bucket ++ "/artifacts/" ++ app_id ++ "/users/" ++ user_id
      ++ "/medical_reports/" ++ doc_name)
  else none

/-- One entry of pageInfo.formInfo.parameterInfo: the displayName key may
be absent, and the value key may be absent. -/
structure ParamInfo where
  displayName : Option String
  value : Option String

/-- The parts of the Dialogflow request body the handler reads; absent
keys are modelled by the same defaults .get supplies. -/
structure RequestBody where
  session : String
  parameterInfo : List ParamInfo
  sessionDocumentUrl : Option String

/-- Python falsiness of an optional string: None and "" are falsy. -/
def pyFalsyStrOpt : Option String → Bool
  | none => true
  | some s => s == ""

/-- The parameterInfo loop (main.py lines 223-227): the first entry whose
displayName is "document_url" and which has a value key wins. -/
def paramDocumentUrl : List ParamInfo → Option String
  | [] => none
  | p :: ps =>
      if p.displayName = some "document_url" ∧ p.value.isSome then p.value
      else paramDocumentUrl ps

/-- Document URL selection (main.py lines 222-231): the form parameter,
falling back to the session parameter when the former is falsy. -/
def pickDocumentUrl (body : RequestBody) : Option String :=
  let fromParams := paramDocumentUrl body.parameterInfo
  if pyFalsyStrOpt fromParams then body.sessionDocumentUrl else fromParams

/-- The downloaded document, abstracted to its byte count: the code never
inspects the bytes, it only hands them to external collaborators. -/
structure DocBytes where
  size : Nat

/-- Outcome of requests.get on the document URL: a connection-level
failure (requests.get itself raises, not an HTTPError), a non-2xx status
(raise_for_status raises HTTPError), or a 2xx response whose full content
is buffered. -/
inductive FetchOutcome where
  | connError : FetchOutcome
  | httpError : FetchOutcome
  | ok (content : DocBytes) : FetchOutcome

/-- Outcome of vision_client.text_detection: the client may raise, or
return a list of text annotations (each abstracted to its description). -/
inductive VisionOutcome where
  | raised : VisionOutcome
  | annotations (texts : List String) : VisionOutcome

/-- The external world for one webhook request. -/
structure Env where
  fetch : String → FetchOutcome
  vision : DocBytes → VisionOutcome
  backend : GeminiBackend
  gcsOk : Bool
  firestoreOk : Bool

/-- Deployment configuration read from the environment (main.py lines
33-38). -/
structure Config where
  geminiApiKey : String
  gcsBucketName : String

/-- The jsonify({...}) literal every return site of the handler builds:
a fulfillmentResponse with one message carrying the given text list. -/
def fulfillmentJson (texts : List String) : Json :=
  Json.obj [("fulfillmentResponse", Json.obj [("messages",
    Json.arr [Json.obj [("text", Json.obj [("text",
      Json.arr (texts.map Json.str))])]])])]

/-- full_text (main.py lines 250-253): the description of the first text
annotation, or "" when there are none. -/
def fullTextOf : List String → String
  | [] => ""
  | d :: _ => d

/-- The try block of the handler (main.py lines 240-304): download, OCR,
Gemini analysis, persistence, and the two except clauses.  Only
raise_for_status on the document download raises an HTTPError; every other
failure inside the block lands in the generic except branch.  The calls to
save_to_cloud_storage and save_to_firestore catch their own exceptions, so
their failure never changes the chosen response. -/
def processDocument (cfg : Config) (env : Env)
    (app_id user_id document_url : String) : Json × List CallEvent :=
  match env.fetch document_url with
  | FetchOutcome.connError =>
      (fulfillmentJson ["I encountered an error while processing your request. Please try again."],
        [CallEvent.httpGet document_url])
  | FetchOutcome.httpError =>
      (fulfillmentJson ["I couldn\x27t download the document. The link may have expired."],
        [CallEvent.httpGet document_url])
  | FetchOutcome.ok doc_content =>
      let doc_name := (pySplitSlash document_url).getLastD ""
      match env.vision doc_content with
      | VisionOutcome.raised =>
          (fulfillmentJson ["I encountered an error while processing your request. Please try again."],
            [CallEvent.httpGet document_url, CallEvent.visionDetect doc_content.size])
      | VisionOutcome.annotations texts =>
          let full_text := fullTextOf texts
          if full_text = "" then
            (fulfillmentJson ["Could not extract text from the document. Please ensure it is a clear image or PDF."],
              [CallEvent.httpGet document_url, CallEvent.visionDetect doc_content.size])
          else
            match analyze_document_with_gemini cfg.geminiApiKey env.backend full_text with
            | ((structuredOpt, summary_text), gev) =>
              let ev2 := [CallEvent.httpGet document_url,
                          CallEvent.visionDetect doc_content.size] ++ gev
              match structuredOpt with
              | none => (fulfillmentJson [summary_text], ev2)
              | some structured_data =>
                  if pyTruthy structured_data = false then
                    (fulfillmentJson [summary_text], ev2)
                  else
                    match structured_data with
                    | Json.obj kvs =>
                        let gcs_url := save_to_cloud_storage cfg.gcsBucketName env.gcsOk
                          app_id user_id doc_name
                        let _structured_data2 := Json.obj (setKey kvs "gcs_url"
                          (match gcs_url with | some u => Json.str u | none => Json.null))
                        let _fs := save_to_firestore env.firestoreOk
                        (fulfillmentJson ["Thank you! I have analyzed your document.",
                            "Here is a summary of the results:\n\n" ++ summary_text],
                          ev2 ++ [CallEvent.gcsUpload, CallEvent.firestoreSet])
                    | _ =>
                        (fulfillmentJson ["I encountered an error while processing your request. Please try again."],
                          ev2 ++ [CallEvent.gcsUpload])

/-- Model of the webhook handler (main.py lines 196-304).  The request
body is None for an invalid body (get_json returning None or a falsy
body); the returned pair is the jsonify response together with the trace
of external calls made while producing it.  A truthy non-dict
structured_data reaches the item assignment on line 276, raises TypeError
there after the storage upload, and lands in the generic except branch. -/
def webhook (cfg : Config) (env : Env) (req_body : Option RequestBody) :
    Json × List CallEvent :=
  match req_body with
  | none => (fulfillmentJson ["Invalid request body."], [])
  | some body =>
      let session_id := parse_dialogflow_session_id body.session
      if pyFalsyStrOpt session_id then
        (fulfillmentJson ["Could not identify session."], [])
      else
        let app_id := "default-app-id"
        let user_id := session_id.getD ""
        let document_url := pickDocumentUrl body
        if pyFalsyStrOpt document_url then
          (fulfillmentJson ["No document URL provided."], [])
        else
          processDocument cfg env app_id user_id (document_url.getD "")

/-- Shape of every jsonify return value of the handler: one message
object whose text.text list is a nonempty list of strings. -/
def isMessageJson (m : Json) : Prop :=
  ∃ texts : List String, texts ≠ [] ∧
    m = Json.obj [("text", Json.obj [("text", Json.arr (texts.map Json.str))])]

/-- Shape of the whole response: a fulfillmentResponse object with a
nonempty messages array, every entry a well-formed message. -/
def isFulfillmentResponse (j : Json) : Prop :=
  ∃ msgs : List Json, msgs ≠ [] ∧ (∀ m ∈ msgs, isMessageJson m) ∧
    j = Json.obj [("fulfillmentResponse", Json.obj [("messages", Json.arr msgs)])]

/-- The truncation behavior the spec asserts, for comparison with the
code: keep only the first cap characters of the text.  Modelled from the
spec; the code under src applies no truncation at all. -/
def specTruncateToCap (cap : Nat) (s : String) : String :=
  String.mk (s.data.take cap)

/-- A 1001-character text, one character over the 1000-character design
cap. -/
def longText : String := String.mk (List.replicate 1001 'a')

/-- Concrete configuration used by the concrete runs below. -/
def cfgA : Config := { geminiApiKey := "key", gcsBucketName := "bkt" }

/-- A request body whose session path has nine slash-separated parts and
whose document URL sits in the session parameters. -/
def bodyA : RequestBody :=
  { session := "projects/p/locations/l/agents/a/sessions/s/x"
    parameterInfo := []
    sessionDocumentUrl := some "http://h/doc.png" }

/-- Backend whose structured answer omits every schema field except
testName, and whose summary call succeeds. -/
def bkOmitsField : GeminiBackend :=
  { structuredCall := fun _ => GeminiOutcome.responded (some "\x7b\"testName\": \"CBC\"\x7d")
    summaryCall := fun _ => GeminiOutcome.responded (some "All good.") }

/-- Backend whose structured answer parses but whose summary call raises. -/
def bkSummaryRaises : GeminiBackend :=
  { structuredCall := fun _ => GeminiOutcome.responded (some "\x7b\"patientName\": \"Jo\"\x7d")
    summaryCall := fun _ => GeminiOutcome.raised }

/-- A model answer wrapped in a markdown code fence. -/
def fencedAnswer : String :=
  "\x60\x60\x60json\n\x7b\"patientName\": \"Jo\"\x7d\n\x60\x60\x60"

/-- Backend answering with the fenced JSON. -/
def bkFenced : GeminiBackend :=
  { structuredCall := fun _ => GeminiOutcome.responded (some fencedAnswer)
    summaryCall := fun _ => GeminiOutcome.responded (some "S") }

/-- Backend answering with the same JSON bare. -/
def bkBare : GeminiBackend :=
  { structuredCall := fun _ => GeminiOutcome.responded (some "\x7b\"patientName\": \"Jo\"\x7d")
    summaryCall := fun _ => GeminiOutcome.responded (some "S") }

/-- Backend whose both calls succeed, with a truthy structured object. -/
def bkFull : GeminiBackend :=
  { structuredCall := fun _ => GeminiOutcome.responded
      (some "\x7b\"patientName\": \"Jo\", \"interpretation\": \"ok\"\x7d")
    summaryCall := fun _ => GeminiOutcome.responded (some "Summary line.") }

/-- Environment whose document download fails at the connection level. -/
def envConn : Env :=
  { fetch := fun _ => FetchOutcome.connError
    vision := fun _ => VisionOutcome.annotations []
    backend := bkFull, gcsOk := true, firestoreOk := true }

/-- Environment whose document download gets a non-2xx status. -/
def envHttp : Env :=
  { fetch := fun _ => FetchOutcome.httpError
    vision := fun _ => VisionOutcome.annotations []
    backend := bkFull, gcsOk := true, firestoreOk := true }

/-- Environment where the download succeeds and OCR finds no text. -/
def envEmpty : Env :=
  { fetch := fun _ => FetchOutcome.ok { size := 10 }
    vision := fun _ => VisionOutcome.annotations []
    backend := bkFull, gcsOk := true, firestoreOk := true }

/-- Environment serving a 26 MB document on which OCR finds no text. -/
def envBig : Env :=
  { fetch := fun _ => FetchOutcome.ok { size := 27262976 }
    vision := fun _ => VisionOutcome.annotations []
    backend := bkFull, gcsOk := true, firestoreOk := true }

/-- Environment where the whole pipeline succeeds but both saves fail. -/
def envSavesFail : Env :=
  { fetch := fun _ => FetchOutcome.ok { size := 10 }
    vision := fun _ => VisionOutcome.annotations ["Hemoglobin 13"]
    backend := bkFull, gcsOk := false, firestoreOk := false }

theorem parseV_backtick (fuel : Nat) (cs r : List Char)
    (h : skipWs cs = '\x60' :: r) : parseV fuel cs = none := by
  cases fuel with
  | zero => rfl
  | succ n => simp [parseV, h]

theorem skipWs_backtick (l : List Char) : skipWs ('\x60' :: l) = '\x60' :: l := by
  simp [skipWs, isJsonWs]

theorem json_loads_fenced (s : String) :
    json_loads ("\x60\x60\x60json\n" ++ s ++ "\n\x60\x60\x60") = none := by
  unfold json_loads
  rw [parseV_backtick _ _ (("\x60\x60json\n".data ++ s.data ++ "\n\x60\x60\x60".data))]
  rw [String.data_append, String.data_append]
  show skipWs ('\x60' :: _) = _
  rw [skipWs_backtick]
  simp

/-- C1 counterexample: a model answer whose parsed JSON omits the
schema-required field patientName yields a structured result that also
omits it; no N/A sentinel is substituted anywhere. -/
theorem c1_cex :
    (analyze_document_with_gemini "key" bkOmitsField "report text").1.1
        = some (Json.obj [("testName", Json.str "CBC")])
      ∧ lookupKey [("testName", Json.str "CBC")] "patientName" = none :=
  ⟨rfl, rfl⟩

/-- C1 (amended): the structured result returned by the extraction step
is exactly the JSON value parsed from the model answer, so any
schema-required field the model omitted stays absent from the result
instead of being backfilled with the N/A sentinel. -/
theorem c1_result_is_parsed_answer_verbatim (apiKey : String) (backend : GeminiBackend)
    (text s : String) (obj : Json) (st : Option String)
    (hkey : ¬ apiKey = "")
    (hcall : backend.structuredCall (prompt_for_structured_data text)
      = GeminiOutcome.responded (some s))
    (hparse : json_loads s = some obj)
    (hsum : backend.summaryCall (summary_prompt obj) = GeminiOutcome.responded st) :
    (analyze_document_with_gemini apiKey backend text).1.1 = some obj := by
  simp [analyze_document_with_gemini, hkey, hcall, hparse, hsum]

/-- C1 witness: the amended theorem applied at a concrete backend whose
answer carries only testName. -/
theorem c1_result_is_parsed_answer_verbatim_witness :
    (analyze_document_with_gemini "key" bkOmitsField "report text").1.1
      = some (Json.obj [("testName", Json.str "CBC")]) :=
  c1_result_is_parsed_answer_verbatim "key" bkOmitsField "report text"
    "\x7b\"testName\": \"CBC\"\x7d" (Json.obj [("testName", Json.str "CBC")])
    (some "All good.") (by decide) rfl rfl rfl

/-- C2 counterexample: the structured answer parses successfully, the
summary call raises, and the function returns None with the failure
message, discarding the extracted fields. -/
theorem c2_cex :
    json_loads "\x7b\"patientName\": \"Jo\"\x7d"
        = some (Json.obj [("patientName", Json.str "Jo")])
      ∧ (analyze_document_with_gemini "key" bkSummaryRaises "report text").1
        = (none, "There was a problem analyzing your document.") :=
  ⟨rfl, rfl⟩

/-- C2 (amended): when structured extraction succeeds but the narrative
summary call fails, the single try block discards the extracted fields
and returns (None, failure message) instead of the partial result. -/
theorem c2_summary_failure_discards_fields (apiKey : String) (backend : GeminiBackend)
    (text s : String) (obj : Json)
    (hkey : ¬ apiKey = "")
    (hcall : backend.structuredCall (prompt_for_structured_data text)
      = GeminiOutcome.responded (some s))
    (hparse : json_loads s = some obj)
    (hsum : backend.summaryCall (summary_prompt obj) = GeminiOutcome.raised) :
    (analyze_document_with_gemini apiKey backend text).1
      = (none, "There was a problem analyzing your document.") := by
  simp [analyze_document_with_gemini, hkey, hcall, hparse, hsum]

/-- C2 witness: the amended theorem applied at a concrete backend whose
summary call raises. -/
theorem c2_summary_failure_discards_fields_witness :
    (analyze_document_with_gemini "key" bkSummaryRaises "report text").1
      = (none, "There was a problem analyzing your document.") :=
  c2_summary_failure_discards_fields "key" bkSummaryRaises "report text"
    "\x7b\"patientName\": \"Jo\"\x7d" (Json.obj [("patientName", Json.str "Jo")])
    (by decide) rfl rfl rfl

/-- C5 counterexample: the same JSON content bare parses into a
structured result, while wrapped in a markdown code fence it fails to
parse and yields the failure outcome; the two results differ. -/
theorem c5_cex :
    (analyze_document_with_gemini "key" bkBare "t").1
        = (some (Json.obj [("patientName", Json.str "Jo")]), "S")
      ∧ (analyze_document_with_gemini "key" bkFenced "t").1
        = (none, "There was a problem analyzing your document.")
      ∧ (analyze_document_with_gemini "key" bkFenced "t").1
        ≠ (analyze_document_with_gemini "key" bkBare "t").1 := by
  refine ⟨rfl, rfl, fun h => ?_⟩
  have h1 : (none : Option Json)
      = some (Json.obj [("patientName", Json.str "Jo")]) := congrArg Prod.fst h
  exact Option.noConfusion h1

/-- C5 (amended): no fence stripping occurs: any model answer wrapped in
a markdown code fence fails JSON parsing and makes the extraction step
return the failure outcome, unlike the equivalent bare answer. -/
theorem c5_fenced_answer_fails_not_stripped (apiKey : String) (backend : GeminiBackend)
    (text s : String)
    (hkey : ¬ apiKey = "")
    (hcall : backend.structuredCall (prompt_for_structured_data text)
      = GeminiOutcome.responded (some ("\x60\x60\x60json\n" ++ s ++ "\n\x60\x60\x60"))) :
    (analyze_document_with_gemini apiKey backend text).1
      = (none, "There was a problem analyzing your document.") := by
  simp [analyze_document_with_gemini, hkey, hcall, json_loads_fenced]

/-- C5 witness: the amended theorem applied at a concrete fenced
answer. -/
theorem c5_fenced_answer_fails_not_stripped_witness :
    (analyze_document_with_gemini "key" bkFenced "t").1
      = (none, "There was a problem analyzing your document.") :=
  c5_fenced_answer_fails_not_stripped "key" bkFenced "t"
    "\x7b\"patientName\": \"Jo\"\x7d" (by decide) rfl

/-- C8: with no Gemini API key configured, the analysis step returns no
structured data and the fixed analysis-unavailable apology, and its call
trace is empty: no request to the generative backend is made. -/
theorem c8_no_key_no_call (backend : GeminiBackend) (text : String) :
    analyze_document_with_gemini "" backend text
      = ((none, "Analysis unavailable. Please try again later."), []) := rfl


/-- Python falsiness of a present string reduces to the empty-string test. -/
theorem pyFalsyStrOpt_some (s : String) : pyFalsyStrOpt (some s) = (s == "") := rfl

/-- C3 counterexample: a connection-level download failure produces the
generic processing-error sentence, not the download-failure sentence the
claim requires for unreachable documents. -/
theorem c3_cex :
    (webhook cfgA envConn (some bodyA)).1
        = fulfillmentJson ["I encountered an error while processing your request. Please try again."]
      ∧ (webhook cfgA envConn (some bodyA)).1
        ≠ fulfillmentJson ["I couldn\x27t download the document. The link may have expired."] := by
  refine ⟨rfl, fun h => ?_⟩
  rw [show (webhook cfgA envConn (some bodyA)).1
      = fulfillmentJson ["I encountered an error while processing your request. Please try again."]
    from rfl] at h
  simp [fulfillmentJson] at h

/-- C3 (amended): both download failure kinds yield a fixed non-technical
sentence, but they differ: a non-2xx status (HTTPError) yields the
download-failure sentence, while a connection-level failure falls into
the generic except branch and yields the generic processing-error
sentence. -/
theorem c3_download_failure_messages (cfg : Config) (env : Env) (body : RequestBody)
    (url : String)
    (hsess : pyFalsyStrOpt (parse_dialogflow_session_id body.session) = false)
    (hurl : pickDocumentUrl body = some url)
    (hne : (url == "") = false) :
    (env.fetch url = FetchOutcome.httpError →
      (webhook cfg env (some body)).1
        = fulfillmentJson ["I couldn\x27t download the document. The link may have expired."])
    ∧ (env.fetch url = FetchOutcome.connError →
      (webhook cfg env (some body)).1
        = fulfillmentJson ["I encountered an error while processing your request. Please try again."]) := by
  constructor <;> intro hf <;>
    simp [webhook, processDocument, hsess, hurl, pyFalsyStrOpt_some, hne, hf]

/-- C3 witness: the amended theorem applied at concrete environments with
an HTTP-status failure and a connection failure. -/
theorem c3_download_failure_messages_witness :
    (webhook cfgA envHttp (some bodyA)).1
        = fulfillmentJson ["I couldn\x27t download the document. The link may have expired."]
    ∧ (webhook cfgA envConn (some bodyA)).1
        = fulfillmentJson ["I encountered an error while processing your request. Please try again."] :=
  ⟨(c3_download_failure_messages cfgA envHttp bodyA "http://h/doc.png" rfl rfl rfl).1 rfl,
   (c3_download_failure_messages cfgA envConn bodyA "http://h/doc.png" rfl rfl rfl).2 rfl⟩

/-- C4: when OCR yields the empty string, the webhook returns the fixed
empty-text response and its trace contains no request to the generative
backend: the analysis stage is never invoked. -/
theorem c4_empty_text_short_circuits (cfg : Config) (env : Env) (body : RequestBody)
    (url : String) (b : DocBytes) (texts : List String)
    (hsess : pyFalsyStrOpt (parse_dialogflow_session_id body.session) = false)
    (hurl : pickDocumentUrl body = some url)
    (hne : (url == "") = false)
    (hf : env.fetch url = FetchOutcome.ok b)
    (hv : env.vision b = VisionOutcome.annotations texts)
    (hempty : fullTextOf texts = "") :
    webhook cfg env (some body)
      = (fulfillmentJson ["Could not extract text from the document. Please ensure it is a clear image or PDF."],
         [CallEvent.httpGet url, CallEvent.visionDetect b.size])
    ∧ ((webhook cfg env (some body)).2.all fun e => !e.isGeminiPost) = true := by
  have h1 : webhook cfg env (some body)
      = (fulfillmentJson ["Could not extract text from the document. Please ensure it is a clear image or PDF."],
         [CallEvent.httpGet url, CallEvent.visionDetect b.size]) := by
    simp [webhook, processDocument, hsess, hurl, pyFalsyStrOpt_some, hne, hf, hv, hempty]
  exact ⟨h1, by rw [h1]; rfl⟩

/-- C4 witness: the theorem applied at a concrete environment whose OCR
returns no annotations. -/
theorem c4_empty_text_short_circuits_witness :
    webhook cfgA envEmpty (some bodyA)
      = (fulfillmentJson ["Could not extract text from the document. Please ensure it is a clear image or PDF."],
         [CallEvent.httpGet "http://h/doc.png", CallEvent.visionDetect 10])
    ∧ ((webhook cfgA envEmpty (some bodyA)).2.all fun e => !e.isGeminiPost) = true :=
  c4_empty_text_short_circuits cfgA envEmpty bodyA "http://h/doc.png"
    { size := 10 } [] rfl rfl rfl rfl rfl rfl


/-- Length of the structured prompt: the full text plus the fixed
surrounding text. -/
theorem prompt_struct_length (t : String) :
    (prompt_for_structured_data t).length
      = structPromptBefore.length + t.length + structPromptAfter.length := by
  simp [prompt_for_structured_data, String.length_append]

/-- The test text is 1001 characters long. -/
theorem longText_length : longText.length = 1001 := by
  show (String.mk (List.replicate 1001 'a')).length = 1001
  rw [String.length_mk, List.length_replicate]

/-- Capping any text keeps at most cap characters. -/
theorem specTruncateToCap_length (cap : Nat) (t : String) :
    (specTruncateToCap cap t).length = min cap t.length := by
  show (String.mk (t.data.take cap)).length = min cap t.length
  rw [String.length_mk, List.length_take]
  rfl

/-- C6 counterexample: for a 1001-character text the prompt differs from
the prompt built from the first 1000 characters, so the prompt does not
embed exactly the first 1000 characters. -/
theorem c6_cex :
    prompt_for_structured_data longText
      ≠ prompt_for_structured_data (specTruncateToCap 1000 longText) := by
  intro h
  have hl := congrArg String.length h
  rw [prompt_struct_length, prompt_struct_length, specTruncateToCap_length,
    longText_length] at hl
  omega

/-- C6 (amended): no truncation happens before prompt construction: the
prompt always embeds the entire extracted text (its length is the full
text length plus the fixed surrounding text), so for any text over the
1000-character design cap it differs from the prompt built from the
capped text. -/
theorem c6_no_truncation (t : String) :
    (prompt_for_structured_data t).length
        = structPromptBefore.length + t.length + structPromptAfter.length
      ∧ (1000 < t.length →
          prompt_for_structured_data t
            ≠ prompt_for_structured_data (specTruncateToCap 1000 t)) := by
  refine ⟨prompt_struct_length t, fun hlen h => ?_⟩
  have hl := congrArg String.length h
  rw [prompt_struct_length, prompt_struct_length, specTruncateToCap_length] at hl
  omega

/-- C6 witness: the amended theorem applied at the 1001-character
text. -/
theorem c6_no_truncation_witness :
    1000 < longText.length
      ∧ prompt_for_structured_data longText
          ≠ prompt_for_structured_data (specTruncateToCap 1000 longText) :=
  ⟨by rw [longText_length]; omega,
   (c6_no_truncation longText).2 (by rw [longText_length]; omega)⟩

/-- The ok branch of the download always hands the full buffered content
to the OCR stage, whatever happens afterwards. -/
theorem processDocument_ok_calls_vision (cfg : Config) (env : Env)
    (a u url : String) (b : DocBytes)
    (hf : env.fetch url = FetchOutcome.ok b) :
    CallEvent.visionDetect b.size ∈ (processDocument cfg env a u url).2 := by
  unfold processDocument
  rw [hf]
  rcases hv : env.vision b with _ | texts
  · simp [hv]
  · simp only [hv]
    by_cases hft : fullTextOf texts = ""
    · simp [hft]
    · rw [if_neg hft]
      rcases hsd : (analyze_document_with_gemini cfg.geminiApiKey env.backend
          (fullTextOf texts)).1.1 with _ | sd
      · simp [hsd]
      · simp only [hsd]
        by_cases ht : pyTruthy sd = false
        · simp [ht]
        · rw [if_neg ht]
          cases sd <;> simp

/-- C7 counterexample: a successfully downloaded 26 MB document (over the
25 MB recommended ceiling) is fully buffered and passed to OCR; the run
proceeds to the empty-text response instead of failing with any
too-large error. -/
theorem c7_cex :
    25 * 1024 * 1024 < 27262976
      ∧ webhook cfgA envBig (some bodyA)
        = (fulfillmentJson ["Could not extract text from the document. Please ensure it is a clear image or PDF."],
           [CallEvent.httpGet "http://h/doc.png", CallEvent.visionDetect 27262976]) :=
  ⟨by decide, rfl⟩

/-- C7 (amended): the fetch step applies no size ceiling: whenever the
download succeeds, even with content over 25 MB, the full buffered
content is handed to the OCR stage (a visionDetect event for the full
size appears in the trace) and no too-large failure exists. -/
theorem c7_no_size_ceiling (cfg : Config) (env : Env) (body : RequestBody)
    (url : String) (b : DocBytes)
    (hsess : pyFalsyStrOpt (parse_dialogflow_session_id body.session) = false)
    (hurl : pickDocumentUrl body = some url)
    (hne : (url == "") = false)
    (hf : env.fetch url = FetchOutcome.ok b)
    (hbig : 25 * 1024 * 1024 < b.size) :
    CallEvent.visionDetect b.size ∈ (webhook cfg env (some body)).2 := by
  have hw : webhook cfg env (some body)
      = processDocument cfg env "default-app-id"
          ((parse_dialogflow_session_id body.session).getD "") url := by
    simp [webhook, hsess, hurl, pyFalsyStrOpt_some, hne]
  rw [hw]
  exact processDocument_ok_calls_vision cfg env _ _ url b hf

/-- C7 witness: the amended theorem applied at the 26 MB environment. -/
theorem c7_no_size_ceiling_witness :
    CallEvent.visionDetect 27262976 ∈ (webhook cfgA envBig (some bodyA)).2 :=
  c7_no_size_ceiling cfgA envBig bodyA "http://h/doc.png" { size := 27262976 }
    rfl rfl rfl rfl (by decide)


/-- Every jsonify literal the handler builds has the fulfillment shape as
soon as its text list is nonempty. -/
theorem fulfillmentJson_shape (texts : List String) (h : texts ≠ []) :
    isFulfillmentResponse (fulfillmentJson texts) :=
  ⟨[Json.obj [("text", Json.obj [("text", Json.arr (texts.map Json.str))])]],
    by simp,
    by intro m hm; rw [List.mem_singleton] at hm; exact ⟨texts, h, hm⟩,
    rfl⟩

/-- C9: on every return path (invalid body, missing session, missing
document URL, download failures, OCR failure or empty text, analysis
failure, success), the webhook returns a fulfillmentResponse object with
a nonempty messages array whose every entry carries a nonempty text.text
list of strings. -/
theorem c9_response_shape (cfg : Config) (env : Env) (req : Option RequestBody) :
    isFulfillmentResponse (webhook cfg env req).1 := by
  unfold webhook processDocument
  cases req with
  | none => exact fulfillmentJson_shape _ (by simp)
  | some body =>
      dsimp only
      repeat' split
      all_goals exact fulfillmentJson_shape _ (by simp)

/-- C10: once the pipeline reaches the persistence step, the user-facing
response does not depend on the Cloud Storage or Firestore save flags:
for every value of the two flags the webhook returns the success message
with the generated summary. -/
theorem c10_saves_never_change_response (cfg : Config) (env : Env) (body : RequestBody)
    (url t summary : String) (ts : List String) (b : DocBytes)
    (kvs : List (String × Json)) (gev : List CallEvent)
    (hsess : pyFalsyStrOpt (parse_dialogflow_session_id body.session) = false)
    (hurl : pickDocumentUrl body = some url)
    (hne : (url == "") = false)
    (hf : env.fetch url = FetchOutcome.ok b)
    (hv : env.vision b = VisionOutcome.annotations (t :: ts))
    (htne : ¬ t = "")
    (han : analyze_document_with_gemini cfg.geminiApiKey env.backend t
      = ((some (Json.obj kvs), summary), gev))
    (hkvs : kvs ≠ []) :
    ∀ g f : Bool,
      (webhook cfg { env with gcsOk := g, firestoreOk := f } (some body)).1
        = fulfillmentJson ["Thank you! I have analyzed your document.",
            "Here is a summary of the results:\n\n" ++ summary] := by
  intro g f
  cases kvs with
  | nil => exact absurd rfl hkvs
  | cons kv kvs2 =>
      simp [webhook, processDocument, hsess, hurl, pyFalsyStrOpt_some, hne, hf, hv,
        fullTextOf, htne, han, pyTruthy]

/-- C10 witness: the theorem applied at a concrete environment where both
saves fail; the response is still the success message. -/
theorem c10_saves_never_change_response_witness :
    (webhook cfgA envSavesFail (some bodyA)).1
      = fulfillmentJson ["Thank you! I have analyzed your document.",
          "Here is a summary of the results:\n\n" ++ "Summary line."] :=
  c10_saves_never_change_response cfgA envSavesFail bodyA "http://h/doc.png"
    "Hemoglobin 13" "Summary line." [] { size := 10 }
    [("patientName", Json.str "Jo"), ("interpretation", Json.str "ok")]
    [CallEvent.geminiPost (prompt_for_structured_data "Hemoglobin 13"),
     CallEvent.geminiPost (summary_prompt (Json.obj
       [("patientName", Json.str "Jo"), ("interpretation", Json.str "ok")]))]
    rfl rfl rfl rfl rfl (by decide) rfl (by simp)
    false false
